import Mathlib

/-!
Shallow embedding of the GraphLint Enterprise-Knowledge-Convergence-OS core:
the Intent Execution Engine (src/packages/intent-engine/src/engine.ts) and the
Criteria Evaluation Engine (criteria engine source, type definitions in
src/packages/criteria-engine/src/types.ts).

Modelling conventions:
- JavaScript dynamic values (the `any`-typed attribute bags, intent parameters,
  diagnostic payloads) are embedded as the inductive `Value`; a JS `undefined`
  slot is `Option Value` with `none` for `undefined`.
- The SSoT document is JSON data (it is loaded with `JSON.parse` and persisted
  with `JSON.stringify`), so the deep-copy snapshot
  `JSON.parse(JSON.stringify(this.ssot))` is modelled by value semantics.
- JS exceptions are modelled with `Except String`; the thrown `Error`'s
  `.message` is the carried string.
- `new Date().toISOString()` and `uuidv4()` are modelled by strings supplied in
  an environment record; the external `fast-json-patch` `applyPatch` library and
  the JS `RegExp` engine are modelled as functions supplied in the environment;
  `fs` write failures during persistence/history recording are modelled as
  optional error messages in the environment.
-/

namespace GraphLint

/-- JSON-like dynamic value (variant over null/bool/number/string/array/object),
modelling the JS values that flow through `attrs`, intent `params` and rule
payloads. Numbers are modelled as integers (the engine only ever counts,
compares and stores them). -/
inductive Value where
  | null : Value
  | bool (b : Bool) : Value
  | num (n : Int) : Value
  | str (s : String) : Value
  | arr (elems : List Value) : Value
  | obj (fields : List (String × Value)) : Value

/-- A JS object record: keys in insertion order, unique by construction. -/
abbrev Rec (α : Type) := List (String × α)

/-- JS property read `r[k]` (first binding wins; JS objects have unique keys). -/
def recGet {α : Type} (r : Rec α) (k : String) : Option α :=
  (r.find? (fun p => p.1 == k)).map (fun p => p.2)

/-- JS truthiness of a value. -/
def Value.truthy : Value → Bool
  | .null => false
  | .bool b => b
  | .num n => n != 0
  | .str s => s ≠ ""
  | .arr _ => true
  | .obj _ => true

/-- JS truthiness of a possibly-`undefined` value. -/
def truthyOpt : Option Value → Bool
  | none => false
  | some v => v.truthy

/-- Is the value `undefined` or `null` (the check `value === undefined || value === null`)? -/
def isNullish : Option Value → Bool
  | none => true
  | some .null => true
  | some _ => false

/-- Does the possibly-`undefined` value strictly equal (`===`) the given string? -/
def isStrV (v : Option Value) (s : String) : Bool :=
  match v with
  | some (.str t) => t == s
  | _ => false

mutual
/-- JS `String(x)` coercion. Objects stringify to "[object Object]"; arrays
join their elements with commas (null/undefined elements become empty). -/
def Value.jsToString : Value → String
  | .null => "null"
  | .bool b => cond b "true" "false"
  | .num n => toString n
  | .str s => s
  | .arr xs => String.intercalate "," (jsToStringList xs)
  | .obj _ => "[object Object]"

/-- Stringify array elements for `Array.prototype.join` (null becomes empty). -/
def jsToStringList : List Value → List String
  | [] => []
  | .null :: rest => "" :: jsToStringList rest
  | v :: rest => v.jsToString :: jsToStringList rest
end

/-- JS template-literal / `String(...)` coercion of a possibly-`undefined` value. -/
def jsStr : Option Value → String
  | none => "undefined"
  | some v => v.jsToString

/-- JS strict equality `===` between possibly-`undefined` values, restricted to
the comparisons the engine performs: primitives compare by value; an object or
array operand compares by reference, and the two operands here always originate
from distinct allocations (rule data vs. graph data), hence `false`. -/
def jsStrictEq : Option Value → Option Value → Bool
  | none, none => true
  | some .null, some .null => true
  | some (.bool a), some (.bool b) => a == b
  | some (.num a), some (.num b) => a == b
  | some (.str a), some (.str b) => a == b
  | _, _ => false

/-- JS `ToNumber` coercion for the relational operators (`none` models NaN;
arrays/objects are modelled as NaN, a deliberate simplification of JS's
primitive-conversion chain that the engine's rule data never exercises). -/
def jsToNumber : Option Value → Option Int
  | none => none
  | some .null => some 0
  | some (.bool b) => some (cond b 1 0)
  | some (.num n) => some n
  | some (.str s) => if s == "" then some 0 else s.toInt?
  | some (.arr _) => none
  | some (.obj _) => none

/-- JS `<` on dynamic values: two strings compare lexicographically, otherwise
both sides are coerced to numbers and NaN makes the comparison false. -/
def jsLt (a b : Option Value) : Bool :=
  match a, b with
  | some (.str x), some (.str y) => decide (x < y)
  | _, _ =>
    match jsToNumber a, jsToNumber b with
    | some x, some y => decide (x < y)
    | _, _ => false

/-- JS `<=` on dynamic values (same coercion rules as `jsLt`). -/
def jsLe (a b : Option Value) : Bool :=
  match a, b with
  | some (.str x), some (.str y) => decide (x ≤ y)
  | _, _ =>
    match jsToNumber a, jsToNumber b with
    | some x, some y => decide (x ≤ y)
    | _, _ => false

/-- Environment for ambient JS library behavior used by the criteria engine:
`regexTest pat s` models `new RegExp(pat).test(s)`. -/
structure JsEnv where
  regexTest : String → String → Bool

/-! ## Criteria engine data model (src/packages/criteria-engine/src/types.ts) -/

/-- Rule severity: 'INFO' | 'WARN' | 'FAIL'. -/
inductive Severity where
  | INFO | WARN | FAIL
deriving DecidableEq, BEq

/-- Rule target type: 'node' | 'edge' | 'graph' | 'attribute'. -/
inductive TargetType where
  | node | edge | graph | «attribute»
deriving DecidableEq, BEq

/-- Rule condition type: 'exists' | 'not_exists' | 'count' | 'attribute' |
'connected' | 'custom'. -/
inductive CondType where
  | «exists» | not_exists | count | «attribute» | connected | custom
deriving DecidableEq, BEq

/-- `kind?: string | string[]` on a rule target. -/
inductive KindSel where
  | one (k : String)
  | many (ks : List String)

structure RuleTarget where
  type : TargetType
  kind : Option KindSel
  selector : Option String

structure RuleCondition where
  type : CondType
  operator : Option String
  value : Option Value
  path : Option String
  edge_kind : Option String
  min : Option Int
  max : Option Int
  function : Option String

structure CriteriaRule where
  id : String
  title : String
  description : String
  severity : Severity
  category : String
  target : RuleTarget
  condition : RuleCondition
  message : String
  why : Option String
  fix_hint : Option String

/-! ## SSoT data model (shared by both engines) -/

structure SSoTMeta where
  version : String
  profile_version : String
  last_updated : String
  created_at : String
  collaboration_mode : String
  description : Option String

structure NodeMetadata where
  created_at : Option String
  created_by : Option String
  confidence : Option Int
  intent_id : Option String

structure Node where
  id : String
  kind : String
  attrs : Value
  metadata : Option NodeMetadata

structure EdgeMetadata where
  created_at : Option String
  created_by : Option String
  confidence : Option Int
  intent_id : Option String
  is_derived : Option Bool

structure Edge where
  «from» : String
  kind : String
  «to» : String
  attrs : Option Value
  metadata : Option EdgeMetadata

structure SSoTIndexes where
  by_kind : Option (Rec (List String))
  incoming_edges : Option (Rec (List Edge))
  outgoing_edges : Option (Rec (List Edge))

structure SSoT where
  meta : SSoTMeta
  nodes : List Node
  edges : List Edge
  indexes : Option SSoTIndexes

/-! ## Criteria engine evaluation (criteria engine source file) -/

/-- The engine's internal `TargetNode`: resolved target with its display id,
kind tag, and underlying node or edge. -/
structure TargetNode where
  id : String
  kind : String
  data : Sum Node Edge

structure RuleViolation where
  target_ref : Option String
  target_kind : Option String
  evidence_anchors : List String
  actual_value : Option Value
  expected_value : Option Value

structure DiagnosticMetadata where
  rule_title : String
  category : String
  evaluated_at : String
  actual_value : Option Value
  expected_value : Option Value

structure Diagnostic where
  rule_id : String
  severity : Severity
  message : String
  target_ref : Option String
  target_kind : Option String
  why : Option String
  fix_hint : Option String
  evidence_anchors : List String
  metadata : DiagnosticMetadata

structure EvaluationSummary where
  by_severity : Rec Int
  by_category : Rec Int
  quality_score : Int

structure CriteriaEvaluation where
  ssot_version : String
  timestamp : String
  total_rules : Nat
  passed : Int
  warned : Nat
  failed : Nat
  diagnostics : List Diagnostic
  summary : EvaluationSummary

/-- The kind filter list: `Array.isArray(target.kind) ? target.kind : [target.kind]`. -/
def kindList : KindSel → List String
  | .one k => [k]
  | .many ks => ks

/-- Truthiness of `target.kind` (`if (target.kind)`): `undefined` and the empty
string are falsy; an array (even empty) is truthy. -/
def kindTruthy : Option KindSel → Bool
  | none => false
  | some (.one k) => k ≠ ""
  | some (.many _) => true

/-- The label used for `target_kind` in graph-level violations:
`Array.isArray(target.kind) ? target.kind.join('|') : target.kind`. -/
def kindLabel : Option KindSel → Option String
  | none => none
  | some (.one k) => some k
  | some (.many ks) => some (String.intercalate "|" ks)

/-- `getTargets`: resolve a rule target to nodes or edges filtered by kind;
target types 'graph' and 'attribute' fall through to the empty list. -/
def getTargets (target : RuleTarget) (ssot : SSoT) : List TargetNode :=
  match target.type with
  | .node =>
    let nodes :=
      if kindTruthy target.kind then
        match target.kind with
        | some sel => ssot.nodes.filter (fun n => (kindList sel).contains n.kind)
        | none => ssot.nodes
      else ssot.nodes
    nodes.map (fun n => { id := n.id, kind := n.kind, data := Sum.inl n })
  | .edge =>
    let edges :=
      if kindTruthy target.kind then
        match target.kind with
        | some sel => ssot.edges.filter (fun e => (kindList sel).contains e.kind)
        | none => ssot.edges
      else ssot.edges
    edges.map (fun e =>
      { id := e.«from» ++ "->" ++ e.kind ++ "->" ++ e.«to», kind := e.kind, data := Sum.inr e })
  | _ => []

/-- `getNestedValue`: dotted-path lookup
`path.split('.').reduce((acc, part) => acc?.[part], obj)`. Property access on a
non-object yields `undefined`, except array/string element and `length` access. -/
def getNestedValue (obj : Option Value) (path : String) : Option Value :=
  (path.splitOn ".").foldl
    (fun acc part =>
      match acc with
      | some (.obj fields) => recGet fields part
      | some (.arr xs) =>
        if part == "length" then some (.num xs.length)
        else (part.toNat?).bind (fun i => xs[i]?)
      | some (.str s) =>
        if part == "length" then some (.num s.length)
        else (part.toNat?).bind (fun i => (s.data[i]?).map (fun c => .str (String.mk [c])))
      | _ => none)
    obj

/-- `compareValues`: apply a comparison operator with JS coercion semantics.
`matches`/`not_matches` consult the ambient RegExp engine. Unknown operators
return false. -/
def compareValues (env : JsEnv) (actual expected : Option Value) (operator : String) : Bool :=
  match operator with
  | "eq" => jsStrictEq actual expected
  | "ne" => !jsStrictEq actual expected
  | "gt" => jsLt expected actual
  | "gte" => jsLe expected actual
  | "lt" => jsLt actual expected
  | "lte" => jsLe actual expected
  | "in" =>
    match expected with
    | some (.arr xs) => xs.any (fun x => jsStrictEq (some x) actual)
    | _ => false
  | "not_in" =>
    match expected with
    | some (.arr xs) => !(xs.any (fun x => jsStrictEq (some x) actual))
    | _ => false
  | "matches" =>
    match expected with
    | some (.str pat) => env.regexTest pat (jsStr actual)
    | _ => false
  | "not_matches" =>
    match expected with
    | some (.str pat) => !(env.regexTest pat (jsStr actual))
    | _ => false
  | _ => false

/-- The attrs bag of a resolved target (`target.data as Node; node.attrs`): an
edge's optional attrs may be `undefined`. -/
def TargetNode.attrsOf : TargetNode → Option Value
  | { data := Sum.inl n, .. } => some n.attrs
  | { data := Sum.inr e, .. } => e.attrs

/-- `checkAttributeCondition`: dotted-path attribute comparison for one target.
`condition.path!` on an absent path makes the subsequent `path.split` throw a
TypeError, modelled as `Except.error`; `condition.operator || 'eq'` defaults a
falsy operator to 'eq'. -/
def checkAttributeCondition (env : JsEnv) (target : TargetNode)
    (condition : RuleCondition) : Except String (Option RuleViolation) :=
  match condition.path with
  | none => .error "TypeError: Cannot read properties of undefined (reading 'split')"
  | some attrPath =>
    let actualValue := getNestedValue target.attrsOf attrPath
    let expectedValue := condition.value
    let operator :=
      match condition.operator with
      | some op => if op == "" then "eq" else op
      | none => "eq"
    let passed := compareValues env actualValue expectedValue operator
    if !passed then
      .ok (some { target_ref := some target.id, target_kind := some target.kind,
                  evidence_anchors := [target.id],
                  actual_value := actualValue, expected_value := expectedValue })
    else .ok none

/-- The outgoing-edge lookup of `checkConnectedCondition`:
`ssot.indexes?.outgoing_edges?.[nodeId]?.filter(e => e.kind === edgeKind) || []`. -/
def connectedOfIndex (ssot : SSoT) (nodeId : String) (edgeKind : Option String) : List Edge :=
  let raw :=
    match ssot.indexes with
    | none => []
    | some idx =>
      match idx.outgoing_edges with
      | none => []
      | some og =>
        match recGet og nodeId with
        | none => []
        | some es => es
  raw.filter (fun e =>
    match edgeKind with
    | some k => e.kind == k
    | none => false)

/-- The effective minimum of `checkConnectedCondition`: `condition.min || 1`
(a falsy minimum — absent or zero — becomes 1). -/
def effectiveMin : Option Int → Int
  | none => 1
  | some m => if m == 0 then 1 else m

/-- `checkConnectedCondition`: violation iff the target's outgoing edges of the
given kind (via the precomputed index) number strictly less than the effective
minimum. -/
def checkConnectedCondition (target : TargetNode) (condition : RuleCondition)
    (ssot : SSoT) : Option RuleViolation :=
  let nodeId := target.id
  let connectedEdges := connectedOfIndex ssot nodeId condition.edge_kind
  let minCount := effectiveMin condition.min
  if (connectedEdges.length : Int) < minCount then
    let ekStr := match condition.edge_kind with | some k => k | none => "undefined"
    let cnt := connectedEdges.length
    some { target_ref := some nodeId, target_kind := some target.kind,
           evidence_anchors := [nodeId],
           actual_value := some (.num cnt),
           expected_value := some (.str (">=" ++ toString minCount ++ " " ++ ekStr ++ " edges")) }
  else none

/-- The per-target loop of the 'attribute' branch: the first throwing target
aborts the whole rule check. -/
def checkAttrList (env : JsEnv) (condition : RuleCondition) :
    List TargetNode → Except String (List RuleViolation)
  | [] => .ok []
  | t :: ts =>
    match checkAttributeCondition env t condition with
    | .error e => .error e
    | .ok v? =>
      match checkAttrList env condition ts with
      | .error e => .error e
      | .ok rest =>
        .ok (match v? with
             | some v => v :: rest
             | none => rest)

/-- `checkRuleCondition`: resolve the target set and apply the rule's condition,
collecting violations; an unrecognized condition type (the 'custom' stub) logs a
warning and contributes no violations. -/
def checkRuleCondition (env : JsEnv) (rule : CriteriaRule) (ssot : SSoT) :
    Except String (List RuleViolation) :=
  let target := rule.target
  let condition := rule.condition
  let targets := getTargets target ssot
  match condition.type with
  | .«exists» =>
    .ok (if targets.length == 0 then
      [{ target_ref := none, target_kind := kindLabel target.kind,
         evidence_anchors := [],
         actual_value := some (.num 0), expected_value := some (.str "at least 1") }]
    else [])
  | .not_exists =>
    .ok (if targets.length > 0 then
      targets.map (fun t =>
        { target_ref := some t.id, target_kind := some t.kind,
          evidence_anchors := [t.id],
          actual_value := some (.str "exists"), expected_value := some (.str "should not exist") })
    else [])
  | .count =>
    let count : Int := targets.length
    let minPart := match condition.min with | some m => ">=" ++ toString m | none => ""
    let maxPart := match condition.max with | some m => " <=" ++ toString m | none => ""
    .ok (if (match condition.min with | some m => count < m | none => false) ||
            (match condition.max with | some m => count > m | none => false) then
      [{ target_ref := none, target_kind := kindLabel target.kind,
         evidence_anchors := targets.map (fun t => t.id),
         actual_value := some (.num count),
         expected_value := some (.str (minPart ++ maxPart)) }]
    else [])
  | .«attribute» => checkAttrList env condition targets
  | .connected =>
    .ok (targets.filterMap (fun t => checkConnectedCondition t condition ssot))
  | .custom => .ok []

/-- `formatMessage`: substitute template placeholders; a falsy `target_ref`
renders as 'unknown'. -/
def formatMessage (template : String) (violation : RuleViolation) : String :=
  let tr := match violation.target_ref with
    | some s => if s == "" then "unknown" else s
    | none => "unknown"
  ((template.replace "{target_ref}" tr).replace
      "{actual_value}" (jsStr violation.actual_value)).replace
    "{expected_value}" (jsStr violation.expected_value)

/-- Build the `Diagnostic` for one violation of a rule (the loop body of
`evaluateRule`; `evaluated_at` is the ambient clock reading). -/
def mkDiagnostic (rule : CriteriaRule) (ts : String) (violation : RuleViolation) : Diagnostic :=
  { rule_id := rule.id, severity := rule.severity,
    message := formatMessage rule.message violation,
    target_ref := violation.target_ref, target_kind := violation.target_kind,
    why := rule.why, fix_hint := rule.fix_hint,
    evidence_anchors := violation.evidence_anchors,
    metadata := { rule_title := rule.title, category := rule.category,
                  evaluated_at := ts,
                  actual_value := violation.actual_value,
                  expected_value := violation.expected_value } }

/-- `evaluateRule`: check one rule; a thrown error is caught and logged and the
rule contributes no diagnostics. -/
def evaluateRule (env : JsEnv) (rule : CriteriaRule) (ssot : SSoT) (ts : String) :
    List Diagnostic :=
  match checkRuleCondition env rule ssot with
  | .error _ => []
  | .ok violations => violations.map (mkDiagnostic rule ts)

/-- The diagnostics accumulation loop of `evaluate`. -/
def evalDiagnostics (env : JsEnv) (rules : List CriteriaRule) (ssot : SSoT) (ts : String) :
    List Diagnostic :=
  match rules with
  | [] => []
  | r :: rest => evaluateRule env r ssot ts ++ evalDiagnostics env rest ssot ts

/-- `calculateQualityScore`: `100 - (failed*10 + warned*2)` clamped to [0, 100];
an empty rule set scores 100. -/
def calculateQualityScore (total failed warned : Int) : Int :=
  if total == 0 then 100
  else
    let penalty := failed * 10 + warned * 2
    let score := 100 - penalty
    max 0 (min 100 score)

/-- The `by_category` accumulation: `byCategory[rule.category] = (byCategory[rule.category] || 0) + 1`. -/
def recIncr (r : Rec Int) (k : String) : Rec Int :=
  if r.any (fun p => p.1 == k) then
    r.map (fun p => if p.1 == k then (p.1, p.2 + 1) else p)
  else r ++ [(k, 1)]

/-- `evaluate`: run every loaded rule over the SSoT snapshot and aggregate
diagnostics, severity counts, the category breakdown and the quality score. -/
def evaluate (env : JsEnv) (rules : List CriteriaRule) (ssot : SSoT) (ts : String) :
    CriteriaEvaluation :=
  let diagnostics := evalDiagnostics env rules ssot ts
  let passed : Int := (rules.length : Int) - (diagnostics.length : Int)
  let warned := (diagnostics.filter (fun d => d.severity == Severity.WARN)).length
  let failed := (diagnostics.filter (fun d => d.severity == Severity.FAIL)).length
  let qualityScore := calculateQualityScore (rules.length : Int) (failed : Int) (warned : Int)
  let byCategory := rules.foldl (fun acc r => recIncr acc r.category) []
  { ssot_version := ssot.meta.version,
    timestamp := ts,
    total_rules := rules.length,
    passed := passed,
    warned := warned,
    failed := failed,
    diagnostics := diagnostics,
    summary := { by_severity := [("PASS", passed), ("WARN", (warned : Int)), ("FAIL", (failed : Int))],
                 by_category := byCategory,
                 quality_score := qualityScore } }

/-! ## Intent engine data model (intent-engine type definitions) -/

structure ValidationError where
  code : String
  message : String
  field : Option String

structure IntentChange where
  type : String
  target : String
  details : Option Value

structure RollbackInfo where
  reason : String
  original_state_snapshot : SSoT

structure IntentResult where
  success : Bool
  intent_id : String
  changes : Option (List IntentChange)
  errors : Option (List ValidationError)
  rollback : Option RollbackInfo

structure IntentMetadata where
  intent_id : String
  timestamp : String
  user : Option String
  source : Option String
  collaboration_mode : Option String

/-- An intent: its type tag, its dynamic parameter object, and optional
caller-supplied metadata. -/
structure Intent where
  type : String
  params : Rec Value
  metadata : Option IntentMetadata

structure EdgeDefinition where
  «from» : List String
  «to» : List String
  cardinality : Option String
  semantics : Option String

structure EffectiveSchema where
  version : String
  source_profile : String
  node_kinds : List String
  edge_kinds : List String
  edge_definitions : Rec EdgeDefinition

/-- A catalog parameter declaration (fields the engine never reads —
description, default, format — are omitted). -/
structure ParameterDefinition where
  type : String
  required : Bool

/-- A catalog intent declaration (fields the engine never reads — title,
scope, category, returns, validation, post_action — are omitted). -/
structure IntentDefinition where
  id : String
  parameters : Rec ParameterDefinition

structure IntentCatalog where
  intents : List IntentDefinition

/-- Engine options relevant to `execute` (`ssotPath` and the validation flags
are never read there). -/
structure IntentEngineOptions where
  autoSave : Bool
  historyDir : Option String

/-- The engine instance state after `initialize()`. -/
structure IntentEngine where
  ssot : SSoT
  schema : EffectiveSchema
  catalog : IntentCatalog
  options : IntentEngineOptions

/-- Ambient environment of one `execute` call: the generated uuid, the clock
reading, the uuid for a node a handler may create, the external
`fast-json-patch` library (`applyPatchFn attrs patch` returns the new
attrs document or throws), and the outcomes of the external `fs` writes for
persistence (`saveErr`) and history recording (`historyErr`) — `some msg`
models a thrown I/O error. -/
structure ExecEnv where
  intentId : String
  timestamp : String
  nodeId : String
  applyPatchFn : Value → Option Value → Except String Value
  saveErr : Option String
  historyErr : Option String

/-! ## Intent engine operations (src/packages/intent-engine/src/engine.ts) -/

/-- JS property read `intent.params[paramName]`. -/
def jsGet (params : Rec Value) (k : String) : Option Value :=
  recGet params k

/-- `findNode`: `this.ssot.nodes.find(n => n.id === id)` with a dynamic id value. -/
def findNodeV (ssot : SSoT) (v : Option Value) : Option Node :=
  ssot.nodes.find? (fun n => isStrV v n.id)

/-- `nodeExists`: `this.ssot.nodes.some(n => n.id === id)` with a dynamic id value. -/
def nodeExistsV (ssot : SSoT) (v : Option Value) : Bool :=
  ssot.nodes.any (fun n => isStrV v n.id)

/-- The body of `validateIntent`'s parameter loop: check one declared
parameter against the intent's params, appending every applicable error. -/
def validateParam (eng : IntentEngine) (params : Rec Value)
    (errors : List ValidationError) (pair : String × ParameterDefinition) :
    List ValidationError :=
  let paramName := pair.1
  let paramDef := pair.2
  let value := jsGet params paramName
  let errors :=
    if paramDef.required && isNullish value then
      errors ++ [{ code := "MISSING_PARAMETER",
                   message := "Required parameter '" ++ paramName ++ "' is missing",
                   field := some paramName }]
    else errors
  if !(isNullish value) then
    let vs := jsStr value
    let errors :=
      if paramDef.type == "NodeRef" && !(nodeExistsV eng.ssot value) then
        errors ++ [{ code := "INVALID_NODE_REF",
                     message := "Node '" ++ vs ++ "' does not exist",
                     field := some paramName }]
      else errors
    let errors :=
      if paramDef.type == "NodeKind" && !(eng.schema.node_kinds.any (fun k => isStrV value k)) then
        errors ++ [{ code := "INVALID_NODE_KIND",
                     message := "Node kind '" ++ vs ++ "' not in schema",
                     field := some paramName }]
      else errors
    if paramDef.type == "EdgeKind" && !(eng.schema.edge_kinds.any (fun k => isStrV value k)) then
      errors ++ [{ code := "INVALID_EDGE_KIND",
                   message := "Edge kind '" ++ vs ++ "' not in schema",
                   field := some paramName }]
    else errors
  else errors

/-- `validateIntent`: unknown intent types fail immediately; otherwise every
declared parameter is checked and ALL applicable errors are accumulated. -/
def validateIntent (eng : IntentEngine) (intent : Intent) : List ValidationError :=
  match eng.catalog.intents.find? (fun i => i.id == intent.type) with
  | none =>
    let t := intent.type
    [{ code := "UNKNOWN_INTENT",
       message := "Intent type '" ++ t ++ "' not found in catalog",
       field := none }]
  | some intentDef =>
    intentDef.parameters.foldl (validateParam eng intent.params) []

/-- `addNode`: append a fresh node of the given kind. In every reachable call
`params.kind` is a schema node kind (a string) — a non-string value is
modelled by its JS string coercion. -/
def addNode (env : ExecEnv) (params : Rec Value) (intentId : String) (ssot : SSoT) :
    Except String (List IntentChange × SSoT) :=
  let nodeId := env.nodeId
  let kindV := jsGet params "kind"
  let node : Node :=
    { id := nodeId,
      kind := jsStr kindV,
      attrs := (match jsGet params "attrs" with
                | some v => if v.truthy then v else .obj []
                | none => .obj []),
      metadata := some { created_at := some env.timestamp, created_by := some "user",
                         confidence := none, intent_id := some intentId } }
  .ok ([{ type := "node_added", target := nodeId,
          details := some (.obj [("kind", (kindV.getD .null))]) }],
       { ssot with nodes := ssot.nodes ++ [node] })

/-- `addEdge`: check the edge-kind definition, both endpoints, and the
endpoint-kind constraints, then append the edge; any check failure throws. -/
def addEdge (env : ExecEnv) (schema : EffectiveSchema) (params : Rec Value)
    (intentId : String) (ssot : SSoT) : Except String (List IntentChange × SSoT) :=
  let ekV := jsGet params "edge_kind"
  let ekS := jsStr ekV
  let edgeDef? :=
    match ekV with
    | some (.str k) => recGet schema.edge_definitions k
    | _ => none
  match edgeDef? with
  | none => .error ("Edge kind '" ++ ekS ++ "' not found in schema")
  | some edgeDef =>
    match findNodeV ssot (jsGet params "from_ref"), findNodeV ssot (jsGet params "to_ref") with
    | some fromNode, some toNode =>
      if !(edgeDef.«from».contains fromNode.kind) then
        let fk := fromNode.kind
        .error ("Edge '" ++ ekS ++ "' cannot start from '" ++ fk ++ "'")
      else if !(edgeDef.«to».contains toNode.kind) then
        let tk := toNode.kind
        .error ("Edge '" ++ ekS ++ "' cannot go to '" ++ tk ++ "'")
      else
        let edge : Edge :=
          { «from» := fromNode.id, kind := ekS, «to» := toNode.id,
            attrs := jsGet params "attrs",
            metadata := some { created_at := some env.timestamp, created_by := some "user",
                               confidence := none, intent_id := some intentId,
                               is_derived := none } }
        .ok ([{ type := "edge_added",
                target := fromNode.id ++ "->" ++ ekS ++ "->" ++ toNode.id,
                details := some (.obj [("kind", .str ekS)]) }],
             { ssot with edges := ssot.edges ++ [edge] })
    | _, _ => .error "Source or target node not found"

/-- Replace the attrs of the first node with the given id (the in-place
mutation of the object `findNode` returned). -/
def setAttrsFirst : List Node → String → Value → List Node
  | [], _, _ => []
  | n :: ns, id, v =>
    if n.id == id then { n with attrs := v } :: ns
    else n :: setAttrsFirst ns id v

/-- `updateNodeAttrs`: apply a JSON Patch (via the external `fast-json-patch`
library) to the node's attrs; the library throws on an invalid or failing-test
operation, and the subsequent `params.patch.length` read throws a TypeError
when the patch is nullish. -/
def updateNodeAttrs (env : ExecEnv) (params : Rec Value) (intentId : String)
    (ssot : SSoT) : Except String (List IntentChange × SSoT) :=
  let nrV := jsGet params "node_ref"
  match findNodeV ssot nrV with
  | none =>
    let nr := jsStr nrV
    .error ("Node '" ++ nr ++ "' not found")
  | some node =>
    match env.applyPatchFn node.attrs (jsGet params "patch") with
    | .error e => .error e
    | .ok newAttrs =>
      let opCount : Option Value :=
        match jsGet params "patch" with
        | some (.arr l) => some (.num l.length)
        | some (.str s) => some (.num s.length)
        | some .null => none
        | some _ => none
        | none => none
      match jsGet params "patch" with
      | none => .error "TypeError: Cannot read properties of undefined (reading 'length')"
      | some .null => .error "TypeError: Cannot read properties of null (reading 'length')"
      | some _ =>
        .ok ([{ type := "node_updated", target := node.id,
                details := some (.obj [("operations", opCount.getD .null)]) }],
             { ssot with nodes := setAttrsFirst ssot.nodes node.id newAttrs })

/-- The connected-edge scan of `deleteNode`:
`this.ssot.edges.filter(e => e.from === params.node_ref || e.to === params.node_ref)`. -/
def connectedEdgesOf (ssot : SSoT) (v : Option Value) : List Edge :=
  ssot.edges.filter (fun e => isStrV v e.«from» || isStrV v e.«to»)

/-- `deleteNode`: refuse to delete a node with connected edges unless `cascade`
is truthy; with cascade, remove the node and every edge touching it. -/
def deleteNode (env : ExecEnv) (params : Rec Value) (intentId : String)
    (ssot : SSoT) : Except String (List IntentChange × SSoT) :=
  let nrV := jsGet params "node_ref"
  match ssot.nodes.findIdx? (fun n => isStrV nrV n.id) with
  | none =>
    let nr := jsStr nrV
    .error ("Node '" ++ nr ++ "' not found")
  | some nodeIndex =>
    let connectedEdges := connectedEdgesOf ssot nrV
    let cascade := truthyOpt (jsGet params "cascade")
    if connectedEdges.length > 0 && !cascade then
      let nr := jsStr nrV
      let cnt := connectedEdges.length
      .error ("Node '" ++ nr ++ "' has " ++ toString cnt ++ " connected edges. Use cascade=true to delete them.")
    else
      let nodes' := ssot.nodes.eraseIdx nodeIndex
      let edges' :=
        if cascade then
          ssot.edges.filter (fun e => !(isStrV nrV e.«from») && !(isStrV nrV e.«to»))
        else ssot.edges
      .ok ([{ type := "node_deleted", target := jsStr nrV,
              details := some (.obj [("cascade", (jsGet params "cascade").getD .null),
                                     ("edges_deleted", .num connectedEdges.length)]) }],
           { ssot with nodes := nodes', edges := edges' })

/-- `addNeed`: create a `Need` node and, when a truthy `expressed_by` actor
reference is given, also an `expresses` edge from the actor to the new Need
(without checking that the actor exists). A JS `undefined` attrs bag is
modelled as null (it is dropped identically by JSON persistence). -/
def addNeed (env : ExecEnv) (params : Rec Value) (intentId : String)
    (ssot : SSoT) : Except String (List IntentChange × SSoT) :=
  let needId := env.nodeId
  let need : Node :=
    { id := needId, kind := "Need",
      attrs := (jsGet params "attrs").getD .null,
      metadata := some { created_at := some env.timestamp, created_by := some "user",
                         confidence := none, intent_id := some intentId } }
  let nodeChange : IntentChange :=
    { type := "node_added", target := needId, details := some (.obj [("kind", .str "Need")]) }
  let ebV := jsGet params "expressed_by"
  if truthyOpt ebV then
    let eb := jsStr ebV
    let edge : Edge :=
      { «from» := eb, kind := "expresses", «to» := needId,
        attrs := none,
        metadata := some { created_at := some env.timestamp, created_by := some "user",
                           confidence := none, intent_id := some intentId,
                           is_derived := none } }
    .ok ([nodeChange,
          { type := "edge_added", target := eb ++ "->expresses->" ++ needId,
            details := some (.obj [("kind", .str "expresses")]) }],
         { ssot with nodes := ssot.nodes ++ [need], edges := ssot.edges ++ [edge] })
  else
    .ok ([nodeChange], { ssot with nodes := ssot.nodes ++ [need] })

/-- `addRequirementRefinement`: require an existing node of kind `Need`, then
create a `Requirement` node and a `refinesTo` edge from the Need to it. -/
def addRequirementRefinement (env : ExecEnv) (params : Rec Value) (intentId : String)
    (ssot : SSoT) : Except String (List IntentChange × SSoT) :=
  let nrV := jsGet params "need_ref"
  let notFound : Except String (List IntentChange × SSoT) :=
    let nr := jsStr nrV
    .error ("Need '" ++ nr ++ "' not found")
  match findNodeV ssot nrV with
  | none => notFound
  | some need =>
    if need.kind != "Need" then notFound
    else
      let reqId := env.nodeId
      let requirement : Node :=
        { id := reqId, kind := "Requirement",
          attrs := (jsGet params "requirement_attrs").getD .null,
          metadata := some { created_at := some env.timestamp, created_by := some "user",
                             confidence := none, intent_id := some intentId } }
      let nr := jsStr nrV
      let edge : Edge :=
        { «from» := nr, kind := "refinesTo", «to» := reqId,
          attrs := none,
          metadata := some { created_at := some env.timestamp, created_by := some "user",
                             confidence := none, intent_id := some intentId,
                             is_derived := none } }
      .ok ([{ type := "node_added", target := reqId,
              details := some (.obj [("kind", .str "Requirement")]) },
            { type := "edge_added", target := nr ++ "->refinesTo->" ++ reqId,
              details := some (.obj [("kind", .str "refinesTo")]) }],
           { ssot with nodes := ssot.nodes ++ [requirement],
                       edges := ssot.edges ++ [edge] })

/-- `intent.metadata!.intent_id`: the non-null assertion does not check, so an
absent metadata makes the property read throw a TypeError. -/
def withIntentId (intent : Intent)
    (f : String → Except String (List IntentChange × SSoT)) :
    Except String (List IntentChange × SSoT) :=
  match intent.metadata with
  | none => .error "TypeError: Cannot read properties of undefined (reading 'intent_id')"
  | some m => f m.intent_id

/-- `executeIntentType`: dispatch to the handler for the intent type; cataloged
types without a handler throw a 'not yet implemented' error. -/
def executeIntentType (env : ExecEnv) (schema : EffectiveSchema) (intent : Intent)
    (ssot : SSoT) : Except String (List IntentChange × SSoT) :=
  match intent.type with
  | "I.AddNode" => withIntentId intent (fun iid => addNode env intent.params iid ssot)
  | "I.AddEdge" => withIntentId intent (fun iid => addEdge env schema intent.params iid ssot)
  | "I.UpdateNodeAttrs" => withIntentId intent (fun iid => updateNodeAttrs env intent.params iid ssot)
  | "I.DeleteNode" => withIntentId intent (fun iid => deleteNode env intent.params iid ssot)
  | "I.AddNeed" => withIntentId intent (fun iid => addNeed env intent.params iid ssot)
  | "I.AddRequirementRefinement" =>
    withIntentId intent (fun iid => addRequirementRefinement env intent.params iid ssot)
  | _ =>
    let t := intent.type
    .error ("Intent type '" ++ t ++ "' not yet implemented")

/-- Append a value to a record key's list, creating the key on first use
(`if (!r[k]) r[k] = []; r[k].push(v)`). -/
def recPush {α : Type} (r : Rec (List α)) (k : String) (v : α) : Rec (List α) :=
  if r.any (fun p => p.1 == k) then
    r.map (fun p => if p.1 == k then (p.1, p.2 ++ [v]) else p)
  else r ++ [(k, [v])]

/-- `rebuildIndexes`: recompute all three indexes wholesale from nodes/edges. -/
def rebuildIndexes (ssot : SSoT) : SSoT :=
  let byKind := ssot.nodes.foldl (fun acc n => recPush acc n.kind n.id) []
  let outgoingEdges := ssot.edges.foldl (fun acc e => recPush acc e.«from» e) []
  let incomingEdges := ssot.edges.foldl (fun acc e => recPush acc e.«to» e) []
  { ssot with indexes := some { by_kind := some byKind,
                                incoming_edges := some incomingEdges,
                                outgoing_edges := some outgoingEdges } }

/-- Step 1 of `execute`: engine-assigned metadata when the caller omitted it. -/
def withMeta (env : ExecEnv) (eng : IntentEngine) (intent : Intent) : Intent :=
  match intent.metadata with
  | none =>
    { intent with metadata := some { intent_id := env.intentId, timestamp := env.timestamp,
                                     user := none, source := some "user",
                                     collaboration_mode := some eng.ssot.meta.collaboration_mode } }
  | some _ => intent

/-- The body of `execute`'s try block: dispatch the mutation, stamp
`meta.last_updated`, rebuild indexes, then perform the optional persistence and
history-recording side effects (each may throw). -/
def executeRun (env : ExecEnv) (eng : IntentEngine) (intent : Intent) :
    Except String (List IntentChange × SSoT) :=
  match executeIntentType env eng.schema intent eng.ssot with
  | .error e => .error e
  | .ok (changes, ssot1) =>
    let ssot2 := { ssot1 with meta := { ssot1.meta with last_updated := env.timestamp } }
    let ssot3 := rebuildIndexes ssot2
    match (if eng.options.autoSave then env.saveErr else none) with
    | some m => .error m
    | none =>
      match (if eng.options.historyDir.isSome then env.historyErr else none) with
      | some m => .error m
      | none => .ok (changes, ssot3)

/-- `execute`: validate, snapshot, mutate, reindex, persist, record; on a
validation error return the error list without touching the graph; on any
exception during execution restore the snapshot and return a failure carrying
the error message and the original snapshot. -/
def execute (env : ExecEnv) (eng : IntentEngine) (intent : Intent) :
    IntentResult × IntentEngine :=
  let intentId := env.intentId
  let intent := withMeta env eng intent
  let validationErrors := validateIntent eng intent
  if validationErrors.length > 0 then
    ({ success := false, intent_id := intentId, changes := none,
       errors := some validationErrors, rollback := none }, eng)
  else
    let snapshot := eng.ssot
    match executeRun env eng intent with
    | .ok (changes, ssot') =>
      ({ success := true, intent_id := intentId, changes := some changes,
         errors := none, rollback := none },
       { eng with ssot := ssot' })
    | .error msg =>
      ({ success := false, intent_id := intentId, changes := none,
         errors := some [{ code := "EXECUTION_FAILED", message := msg, field := none }],
         rollback := some { reason := "Execution error", original_state_snapshot := snapshot } },
       { eng with ssot := snapshot })

/-! ## Helper lemmas -/

/-- The diagnostics loop distributes over list append. -/
theorem evalDiagnostics_append (env : JsEnv) (xs ys : List CriteriaRule)
    (ssot : SSoT) (ts : String) :
    evalDiagnostics env (xs ++ ys) ssot ts =
      evalDiagnostics env xs ssot ts ++ evalDiagnostics env ys ssot ts := by
  induction xs with
  | nil => rfl
  | cons x xs ih => simp [evalDiagnostics, ih]

/-- With at least one rule, the quality score is the clamped penalty formula. -/
theorem calculateQualityScore_of_ne (total failed warned : Int) (h : total ≠ 0) :
    calculateQualityScore total failed warned =
      max 0 (min 100 (100 - (failed * 10 + warned * 2))) := by
  unfold calculateQualityScore
  rw [if_neg]
  simp [h]

/-! ## Claim theorems: criteria engine -/

/-- C9: for every evaluation, the reported `passed` count equals `total_rules`
minus the total number of diagnostics, and `total_rules` is the rule count;
each diagnostic is individually enumerated in `diagnostics`, so a rule yielding
several diagnostics lowers `passed` by each of them. -/
theorem passed_count_formula (env : JsEnv) (rules : List CriteriaRule)
    (ssot : SSoT) (ts : String) :
    (evaluate env rules ssot ts).passed =
      ((evaluate env rules ssot ts).total_rules : Int) -
        ((evaluate env rules ssot ts).diagnostics.length : Int) ∧
    (evaluate env rules ssot ts).total_rules = rules.length :=
  ⟨rfl, rfl⟩

/-- C5: the quality score equals `clamp(0, 100, 100 - (failed*10 + warned*2))`
where `failed` and `warned` count diagnostics of severity FAIL and WARN
(not rules); with 10 rules, 1 FAIL diagnostic and 2 WARN diagnostics this
yields 86. -/
theorem quality_score_formula (env : JsEnv) (rules : List CriteriaRule)
    (ssot : SSoT) (ts : String) :
    (evaluate env rules ssot ts).summary.quality_score =
      max 0 (min 100 (100 -
        ((((evaluate env rules ssot ts).diagnostics.filter
            (fun d => d.severity == Severity.FAIL)).length : Int) * 10 +
         (((evaluate env rules ssot ts).diagnostics.filter
            (fun d => d.severity == Severity.WARN)).length : Int) * 2))) := by
  cases rules with
  | nil => rfl
  | cons r rs =>
    have hform : (evaluate env (r :: rs) ssot ts).summary.quality_score =
        calculateQualityScore (((r :: rs).length : Nat) : Int)
          (((evaluate env (r :: rs) ssot ts).diagnostics.filter
              (fun d => d.severity == Severity.FAIL)).length : Int)
          (((evaluate env (r :: rs) ssot ts).diagnostics.filter
              (fun d => d.severity == Severity.WARN)).length : Int) := rfl
    have hne : (((r :: rs).length : Nat) : Int) ≠ 0 := by
      simp only [List.length_cons]
      push_cast
      omega
    rw [hform, calculateQualityScore_of_ne _ _ _ hne]

/-- C10: a rule whose target type is 'graph' or 'attribute' resolves to the
empty target set, so an 'exists' condition always yields exactly one violation,
a 'not_exists' condition never yields one, and a 'count' condition always sees
a count of 0. -/
theorem graph_attribute_targets_empty (env : JsEnv) (rule : CriteriaRule) (ssot : SSoT)
    (h : rule.target.type = TargetType.graph ∨ rule.target.type = TargetType.attribute) :
    getTargets rule.target ssot = [] ∧
    (rule.condition.type = CondType.«exists» →
      checkRuleCondition env rule ssot = .ok
        [{ target_ref := none, target_kind := kindLabel rule.target.kind,
           evidence_anchors := [],
           actual_value := some (.num 0), expected_value := some (.str "at least 1") }]) ∧
    (rule.condition.type = CondType.not_exists →
      checkRuleCondition env rule ssot = .ok []) ∧
    (rule.condition.type = CondType.count →
      checkRuleCondition env rule ssot = .ok
        (if (rule.condition.min.elim false (fun m => decide ((0 : Int) < m)) ||
             rule.condition.max.elim false (fun m => decide ((0 : Int) > m))) then
          [{ target_ref := none, target_kind := kindLabel rule.target.kind,
             evidence_anchors := [],
             actual_value := some (.num 0),
             expected_value := some (.str
               ((match rule.condition.min with | some m => ">=" ++ toString m | none => "") ++
                (match rule.condition.max with | some m => " <=" ++ toString m | none => ""))) }]
         else [])) := by
  have ht : getTargets rule.target ssot = [] := by
    unfold getTargets
    rcases h with h | h <;> rw [h]
  refine ⟨ht, ?_, ?_, ?_⟩ <;> intro hc
  · simp [checkRuleCondition, hc, ht]
  · simp [checkRuleCondition, hc, ht]
  · rcases hmin : rule.condition.min with _ | m <;> rcases hmax : rule.condition.max with _ | mx <;>
      simp [checkRuleCondition, hc, ht, hmin, hmax]

/-- C8 (amended): for a 'connected' rule, violations are exactly the target
nodes whose outgoing-edge count of the specified kind (from the precomputed
index) is strictly less than the effective minimum; the effective minimum is 1
both when `min` is unset and when `min` is explicitly 0 (a falsy value under
`condition.min || 1`). -/
theorem connected_condition_effective_min (env : JsEnv) (rule : CriteriaRule) (ssot : SSoT)
    (h : rule.condition.type = CondType.connected) :
    checkRuleCondition env rule ssot = .ok
      ((getTargets rule.target ssot).filterMap
        (fun t => checkConnectedCondition t rule.condition ssot)) ∧
    (∀ t : TargetNode,
      (checkConnectedCondition t rule.condition ssot).isSome = true ↔
        ((connectedOfIndex ssot t.id rule.condition.edge_kind).length : Int) <
          effectiveMin rule.condition.min) ∧
    effectiveMin (some 0) = 1 ∧ effectiveMin none = 1 := by
  refine ⟨?_, ?_, rfl, rfl⟩
  · simp [checkRuleCondition, h]
  · intro t
    unfold checkConnectedCondition
    by_cases hlt : ((connectedOfIndex ssot t.id rule.condition.edge_kind).length : Int) <
        effectiveMin rule.condition.min
    · simp [hlt]
    · simp [hlt]

/-- Shared trivial JS environment: a RegExp engine that matches nothing
(no claim in this development exercises regex matching). -/
def noRegex : JsEnv := ⟨fun _ _ => false⟩

/-- A rule with a 'connected' condition whose `min` is explicitly 0. -/
def c8rule : CriteriaRule :=
  { id := "R-conn-0", title := "connected with explicit zero minimum",
    description := "zero minimum is falsy", severity := Severity.WARN,
    category := "structure",
    target := { type := TargetType.node, kind := none, selector := none },
    condition := { type := CondType.connected, operator := none, value := none,
                   path := none, edge_kind := some "refinesTo", min := some 0,
                   max := none, function := none },
    message := "m", why := none, fix_hint := none }

/-- A one-node graph with freshly built (empty) edge indexes. -/
def c8ssot : SSoT :=
  { meta := { version := "1", profile_version := "1", last_updated := "t0",
              created_at := "t0", collaboration_mode := "manual", description := none },
    nodes := [{ id := "n1", kind := "Need", attrs := .obj [], metadata := none }],
    edges := [],
    indexes := some { by_kind := some [("Need", ["n1"])], incoming_edges := some [],
                      outgoing_edges := some [] } }

/-- C8 counterexample: with `min` explicitly set to 0 and a node with zero
outgoing `refinesTo` edges, the rule DOES report a violation (the claim says it
reports none): `condition.min || 1` turns the falsy 0 into 1. -/
theorem connected_min_zero_counterexample :
    checkRuleCondition noRegex c8rule c8ssot = .ok
      [{ target_ref := some "n1", target_kind := some "Need",
         evidence_anchors := ["n1"],
         actual_value := some (.num 0),
         expected_value := some (.str ">=1 refinesTo edges") }] ∧
    ([{ target_ref := some "n1", target_kind := some "Need",
        evidence_anchors := ["n1"],
        actual_value := some (.num 0),
        expected_value := some (.str ">=1 refinesTo edges") }] : List RuleViolation) ≠ [] := by
  constructor
  · rfl
  · simp

/-- C6: a rule whose condition evaluation throws, or whose condition type falls
through to the unrecognized default (the unimplemented 'custom' stub),
contributes zero diagnostics, and every remaining rule still produces exactly
its own diagnostics; `evaluate` is a total function, so no error reaches its
caller. -/
theorem faulty_rule_isolation (env : JsEnv) (pre post : List CriteriaRule)
    (bad : CriteriaRule) (ssot : SSoT) (ts : String)
    (h : (∃ e, checkRuleCondition env bad ssot = Except.error e) ∨
         bad.condition.type = CondType.custom) :
    evaluateRule env bad ssot ts = [] ∧
    (evaluate env (pre ++ bad :: post) ssot ts).diagnostics =
      (evaluate env pre ssot ts).diagnostics ++ (evaluate env post ssot ts).diagnostics := by
  have hz : evaluateRule env bad ssot ts = [] := by
    rcases h with ⟨e, he⟩ | hc
    · unfold evaluateRule
      rw [he]
    · simp [evaluateRule, checkRuleCondition, hc]
  refine ⟨hz, ?_⟩
  show evalDiagnostics env (pre ++ bad :: post) ssot ts =
    evalDiagnostics env pre ssot ts ++ evalDiagnostics env post ssot ts
  rw [evalDiagnostics_append]
  simp [evalDiagnostics, hz]

/-! ## Helper lemmas: intent engine -/

/-- Assigning engine metadata does not change the intent's type. -/
theorem withMeta_type (env : ExecEnv) (eng : IntentEngine) (intent : Intent) :
    (withMeta env eng intent).type = intent.type := by
  obtain ⟨t, p, m⟩ := intent
  cases m <;> rfl

/-- Assigning engine metadata does not change the intent's params. -/
theorem withMeta_params (env : ExecEnv) (eng : IntentEngine) (intent : Intent) :
    (withMeta env eng intent).params = intent.params := by
  obtain ⟨t, p, m⟩ := intent
  cases m <;> rfl

/-- Validation only reads the intent's type and params, so it is unaffected by
the engine-assigned metadata. -/
theorem validateIntent_withMeta (env : ExecEnv) (eng : IntentEngine) (intent : Intent) :
    validateIntent eng (withMeta env eng intent) = validateIntent eng intent := by
  obtain ⟨t, p, m⟩ := intent
  cases m <;> rfl

/-- Whenever validation passes and the try-block throws, `execute` returns the
EXECUTION_FAILED failure with the snapshot and restores the engine. -/
theorem execute_of_exec_error (env : ExecEnv) (eng : IntentEngine) (intent : Intent)
    (msg : String)
    (h1 : validateIntent eng intent = [])
    (h2 : executeRun env eng (withMeta env eng intent) = .error msg) :
    execute env eng intent =
      ({ success := false, intent_id := env.intentId, changes := none,
         errors := some [{ code := "EXECUTION_FAILED", message := msg, field := none }],
         rollback := some { reason := "Execution error", original_state_snapshot := eng.ssot } },
       eng) := by
  simp only [execute, validateIntent_withMeta, h1, h2, List.length_nil, gt_iff_lt,
    lt_self_iff_false, if_false]

/-- Every error `validateParam` appends on top of the accumulator carries one
of the four parameter-validation codes. -/
theorem validateParam_codes (eng : IntentEngine) (params : Rec Value)
    (acc : List ValidationError) (pair : String × ParameterDefinition)
    (e : ValidationError) (he : e ∈ validateParam eng params acc pair) :
    e ∈ acc ∨ e.code ∈ ["UNKNOWN_INTENT", "MISSING_PARAMETER", "INVALID_NODE_REF",
      "INVALID_NODE_KIND", "INVALID_EDGE_KIND"] := by
  unfold validateParam at he
  dsimp only at he
  split_ifs at he <;> (try simp only [List.mem_append, List.mem_singleton] at he) <;> aesop

/-- Folding the parameter checks preserves the error-code invariant. -/
theorem validateFold_codes (eng : IntentEngine) (params : Rec Value)
    (pl : Rec ParameterDefinition) :
    ∀ acc : List ValidationError,
      (∀ e ∈ acc, e.code ∈ ["UNKNOWN_INTENT", "MISSING_PARAMETER", "INVALID_NODE_REF",
        "INVALID_NODE_KIND", "INVALID_EDGE_KIND"]) →
      ∀ e ∈ pl.foldl (validateParam eng params) acc,
        e.code ∈ ["UNKNOWN_INTENT", "MISSING_PARAMETER", "INVALID_NODE_REF",
          "INVALID_NODE_KIND", "INVALID_EDGE_KIND"] := by
  induction pl with
  | nil => intro acc hacc e he; exact hacc e he
  | cons p ps ih =>
    intro acc hacc e he
    simp only [List.foldl_cons] at he
    refine ih (validateParam eng params acc p) ?_ e he
    intro e' he'
    rcases validateParam_codes eng params acc p e' he' with h | h
    · exact hacc e' h
    · exact h

/-! ## Claim theorems: intent engine -/

/-- C1: if validation passes and the execution path throws (in a mutation
handler, during persistence, or during history recording — reindexing cannot
throw), `execute` returns success=false with the single EXECUTION_FAILED error
carrying the thrown message, the pre-mutation snapshot under
`rollback.original_state_snapshot`, and the engine's graph is restored to the
exact pre-call value, so no partial state is observable by a later call. -/
theorem execute_rolls_back_on_execution_error (env : ExecEnv) (eng : IntentEngine)
    (intent : Intent) (msg : String)
    (h1 : validateIntent eng intent = [])
    (h2 : executeRun env eng (withMeta env eng intent) = .error msg) :
    execute env eng intent =
      ({ success := false, intent_id := env.intentId, changes := none,
         errors := some [{ code := "EXECUTION_FAILED", message := msg, field := none }],
         rollback := some { reason := "Execution error", original_state_snapshot := eng.ssot } },
       eng) :=
  execute_of_exec_error env eng intent msg h1 h2

/-- C2: if validation produces any error, `execute` returns success=false with
the complete accumulated error list, no rollback field, and the engine (nodes,
edges, indexes, meta) unchanged; every reported code is one of the five
validation codes. -/
theorem execute_validation_failure_unchanged (env : ExecEnv) (eng : IntentEngine)
    (intent : Intent)
    (h : validateIntent eng intent ≠ []) :
    execute env eng intent =
      ({ success := false, intent_id := env.intentId, changes := none,
         errors := some (validateIntent eng intent), rollback := none }, eng) ∧
    ∀ e ∈ validateIntent eng intent,
      e.code ∈ ["UNKNOWN_INTENT", "MISSING_PARAMETER", "INVALID_NODE_REF",
        "INVALID_NODE_KIND", "INVALID_EDGE_KIND"] := by
  constructor
  · simp only [execute, validateIntent_withMeta]
    rw [if_pos]
    exact List.length_pos.mpr h
  · intro e he
    unfold validateIntent at he
    split at he
    · simp only [List.mem_singleton] at he
      subst he
      simp
    · exact validateFold_codes eng intent.params _ [] (by simp) e he

/-- C7: an intent whose type passes validation (hence is declared in the
catalog) but has no executing handler fails explicitly: `execute` returns
success=false with an EXECUTION_FAILED error carrying the 'not yet implemented'
message and the rollback snapshot, and the graph is unchanged — neither a
silent no-op nor an escaped exception. -/
theorem unimplemented_intent_fails_explicitly (env : ExecEnv) (eng : IntentEngine)
    (intent : Intent)
    (h1 : validateIntent eng intent = [])
    (h2 : intent.type ∉ (["I.AddNode", "I.AddEdge", "I.UpdateNodeAttrs",
      "I.DeleteNode", "I.AddNeed", "I.AddRequirementRefinement"] : List String)) :
    execute env eng intent =
      ({ success := false, intent_id := env.intentId, changes := none,
         errors := some [{ code := "EXECUTION_FAILED",
                           message := "Intent type '" ++ intent.type ++ "' not yet implemented",
                           field := none }],
         rollback := some { reason := "Execution error", original_state_snapshot := eng.ssot } },
       eng) := by
  apply execute_of_exec_error env eng intent _ h1
  have hd : executeIntentType env eng.schema (withMeta env eng intent) eng.ssot =
      .error ("Intent type '" ++ intent.type ++ "' not yet implemented") := by
    unfold executeIntentType
    rw [withMeta_type]
    split
    · simp_all
    · simp_all
    · simp_all
    · simp_all
    · simp_all
    · simp_all
    · rfl
  unfold executeRun
  rw [hd]

/-- C3: `AddEdge` succeeds — appending exactly one new edge
`(from_ref, edge_kind, to_ref)` and returning a single `edge_added` change —
precisely when the edge kind has a schema definition, both endpoints exist, and
the endpoint kinds satisfy the definition's `from`/`to` sets; each of the four
failure causes makes it throw a descriptive error with no edge appended. -/
theorem addEdge_spec (env : ExecEnv) (schema : EffectiveSchema) (params : Rec Value)
    (intentId : String) (ssot : SSoT) :
    (∀ (k : String) (d : EdgeDefinition) (fn tn : Node),
      jsGet params "edge_kind" = some (.str k) →
      recGet schema.edge_definitions k = some d →
      findNodeV ssot (jsGet params "from_ref") = some fn →
      findNodeV ssot (jsGet params "to_ref") = some tn →
      d.«from».contains fn.kind = true →
      d.«to».contains tn.kind = true →
      addEdge env schema params intentId ssot = .ok
        ([{ type := "edge_added",
            target := fn.id ++ "->" ++ k ++ "->" ++ tn.id,
            details := some (.obj [("kind", .str k)]) }],
         { ssot with edges := ssot.edges ++
            [{ «from» := fn.id, kind := k, «to» := tn.id,
               attrs := jsGet params "attrs",
               metadata := some { created_at := some env.timestamp,
                                  created_by := some "user",
                                  confidence := none, intent_id := some intentId,
                                  is_derived := none } }] })) ∧
    ((match jsGet params "edge_kind" with
      | some (.str k) => recGet schema.edge_definitions k
      | _ => none) = none →
      ∃ m, addEdge env schema params intentId ssot = .error m) ∧
    (findNodeV ssot (jsGet params "from_ref") = none →
      ∃ m, addEdge env schema params intentId ssot = .error m) ∧
    (findNodeV ssot (jsGet params "to_ref") = none →
      ∃ m, addEdge env schema params intentId ssot = .error m) ∧
    (∀ (k : String) (d : EdgeDefinition) (fn : Node),
      jsGet params "edge_kind" = some (.str k) →
      recGet schema.edge_definitions k = some d →
      findNodeV ssot (jsGet params "from_ref") = some fn →
      d.«from».contains fn.kind = false →
      ∃ m, addEdge env schema params intentId ssot = .error m) ∧
    (∀ (k : String) (d : EdgeDefinition) (tn : Node),
      jsGet params "edge_kind" = some (.str k) →
      recGet schema.edge_definitions k = some d →
      findNodeV ssot (jsGet params "to_ref") = some tn →
      d.«to».contains tn.kind = false →
      ∃ m, addEdge env schema params intentId ssot = .error m) := by
  refine ⟨?_, ?_, ?_, ?_, ?_, ?_⟩
  · intro k d fn tn hk hd hf ht hfrom hto
    have hfrom' : fn.kind ∈ d.«from» := by simpa using hfrom
    have hto' : tn.kind ∈ d.«to» := by simpa using hto
    simp [addEdge, hk, hd, hf, ht, hfrom', hto', jsStr, Value.jsToString]
  · intro hnone
    simp only [addEdge, hnone]
    exact ⟨_, rfl⟩
  · intro hf
    simp only [addEdge, hf]
    split <;> exact ⟨_, rfl⟩
  · intro ht
    simp only [addEdge, ht]
    split
    · exact ⟨_, rfl⟩
    · split <;> first | exact ⟨_, rfl⟩ | simp_all
  · intro k d fn hk hd hf hfrom
    have hfrom' : ¬ fn.kind ∈ d.«from» := by simpa using hfrom
    simp only [addEdge, hk, hd, hf]
    rcases hto2 : findNodeV ssot (jsGet params "to_ref") with _ | tn
    · exact ⟨_, rfl⟩
    · simp [hfrom']
  · intro k d tn hk hd ht hto
    have hto' : ¬ tn.kind ∈ d.«to» := by simpa using hto
    simp only [addEdge, hk, hd, ht]
    rcases hf2 : findNodeV ssot (jsGet params "from_ref") with _ | fn
    · exact ⟨_, rfl⟩
    · by_cases hfrom2 : fn.kind ∈ d.«from»
      · simp [hfrom2, hto']
      · simp [hfrom2]

/-- C4: deleting an existing node that has n > 0 connected edges fails with an
error reporting the count n (and removes nothing) when `cascade` is not set,
and with `cascade` set removes the node and exactly its n connected edges, no
others, reporting `edges_deleted = n` in the change record. -/
theorem deleteNode_cascade_spec (env : ExecEnv) (params : Rec Value)
    (intentId : String) (ssot : SSoT) (nid : String) (i : Nat) (n : Nat)
    (href : jsGet params "node_ref" = some (.str nid))
    (hidx : ssot.nodes.findIdx? (fun node => isStrV (jsGet params "node_ref") node.id) = some i)
    (hcnt : (connectedEdgesOf ssot (jsGet params "node_ref")).length = n)
    (hpos : 0 < n) :
    (truthyOpt (jsGet params "cascade") = false →
      deleteNode env params intentId ssot = .error
        ("Node '" ++ nid ++ "' has " ++ toString n ++
          " connected edges. Use cascade=true to delete them.")) ∧
    (truthyOpt (jsGet params "cascade") = true →
      deleteNode env params intentId ssot = .ok
        ([{ type := "node_deleted", target := nid,
            details := some (.obj [("cascade", (jsGet params "cascade").getD .null),
                                   ("edges_deleted", .num n)]) }],
         { ssot with
             nodes := ssot.nodes.eraseIdx i,
             edges := ssot.edges.filter
               (fun e => !(isStrV (jsGet params "node_ref") e.«from») &&
                         !(isStrV (jsGet params "node_ref") e.«to»)) })) := by
  constructor
  · intro hc
    rw [href] at hidx hcnt
    simp only [deleteNode, href, hidx, hcnt, hc, jsStr, Value.jsToString]
    rw [if_pos]
    simpa using hpos
  · intro hc
    rw [href] at hidx hcnt
    simp only [deleteNode, href, hidx, hcnt, hc, jsStr, Value.jsToString]
    rw [if_neg]
    · rfl
    · simp

/-! ## Concrete witnesses -/

/-- A shared minimal SSoT metadata block for the concrete examples. -/
def baseMeta : SSoTMeta :=
  { version := "2.0.0", profile_version := "1.0", last_updated := "t0",
    created_at := "t0", collaboration_mode := "manual", description := none }

/-- A shared execution environment for the concrete examples: fixed uuid and
clock strings, an identity patch library, and error-free external writes. -/
def testExecEnv : ExecEnv :=
  { intentId := "uuid-1", timestamp := "2026-01-01T00:00:00.000Z", nodeId := "uuid-2",
    applyPatchFn := fun attrs _ => .ok attrs, saveErr := none, historyErr := none }

def c1eng : IntentEngine :=
  { ssot := { meta := baseMeta, nodes := [], edges := [], indexes := none },
    schema := { version := "1", source_profile := "p", node_kinds := ["Need"],
                edge_kinds := ["refinesTo"],
                edge_definitions := [("refinesTo",
                  { «from» := ["Need"], «to» := ["Requirement"],
                    cardinality := none, semantics := none })] },
    catalog := { intents := [{ id := "I.AddEdge", parameters := [] }] },
    options := { autoSave := false, historyDir := none } }

def c1intent : Intent := { type := "I.AddEdge", params := [], metadata := none }

/-- Witness for C1: an `I.AddEdge` intent that passes (trivial) validation but
throws inside the handler rolls the engine back and reports the thrown
message with the snapshot. -/
theorem execute_rolls_back_on_execution_error_witness :
    execute testExecEnv c1eng c1intent =
      ({ success := false, intent_id := "uuid-1", changes := none,
         errors := some [{ code := "EXECUTION_FAILED",
                           message := "Edge kind 'undefined' not found in schema",
                           field := none }],
         rollback := some { reason := "Execution error",
                            original_state_snapshot := c1eng.ssot } }, c1eng) :=
  execute_rolls_back_on_execution_error testExecEnv c1eng c1intent
    "Edge kind 'undefined' not found in schema" rfl rfl

def c2eng : IntentEngine :=
  { ssot := { meta := baseMeta, nodes := [], edges := [], indexes := none },
    schema := { version := "1", source_profile := "p", node_kinds := [],
                edge_kinds := [], edge_definitions := [] },
    catalog := { intents := [] },
    options := { autoSave := false, historyDir := none } }

def c2intent : Intent := { type := "I.Bogus", params := [], metadata := none }

/-- Witness for C2: an unknown intent type yields the UNKNOWN_INTENT error
list, no rollback field, and an unchanged engine. -/
theorem execute_validation_failure_unchanged_witness :
    execute testExecEnv c2eng c2intent =
      ({ success := false, intent_id := "uuid-1", changes := none,
         errors := some [{ code := "UNKNOWN_INTENT",
                           message := "Intent type 'I.Bogus' not found in catalog",
                           field := none }],
         rollback := none }, c2eng) ∧
    ∀ e ∈ validateIntent c2eng c2intent,
      e.code ∈ ["UNKNOWN_INTENT", "MISSING_PARAMETER", "INVALID_NODE_REF",
        "INVALID_NODE_KIND", "INVALID_EDGE_KIND"] :=
  execute_validation_failure_unchanged testExecEnv c2eng c2intent
    (by
      have h0 : validateIntent c2eng c2intent =
          [{ code := "UNKNOWN_INTENT",
             message := "Intent type 'I.Bogus' not found in catalog",
             field := none }] := rfl
      rw [h0]
      exact List.cons_ne_nil _ _)

def c3schema : EffectiveSchema :=
  { version := "1", source_profile := "p", node_kinds := ["Need", "Requirement"],
    edge_kinds := ["refinesTo"],
    edge_definitions := [("refinesTo",
      { «from» := ["Need"], «to» := ["Requirement"],
        cardinality := none, semantics := none })] }

def c3need : Node := { id := "n1", kind := "Need", attrs := .obj [], metadata := none }

def c3req : Node := { id := "r1", kind := "Requirement", attrs := .obj [], metadata := none }

def c3ssot : SSoT :=
  { meta := baseMeta, nodes := [c3need, c3req], edges := [], indexes := none }

def c3params : Rec Value :=
  [("from_ref", .str "n1"), ("edge_kind", .str "refinesTo"), ("to_ref", .str "r1")]

/-- Witness for C3: a fully valid `AddEdge` appends exactly one edge and
returns a single `edge_added` change record. -/
theorem addEdge_spec_witness :
    addEdge testExecEnv c3schema c3params "uuid-1" c3ssot = .ok
      ([{ type := "edge_added", target := "n1->refinesTo->r1",
          details := some (.obj [("kind", .str "refinesTo")]) }],
       { c3ssot with edges := c3ssot.edges ++
          [{ «from» := "n1", kind := "refinesTo", «to» := "r1",
             attrs := none,
             metadata := some { created_at := some "2026-01-01T00:00:00.000Z",
                                created_by := some "user",
                                confidence := none, intent_id := some "uuid-1",
                                is_derived := none } }] }) :=
  (addEdge_spec testExecEnv c3schema c3params "uuid-1" c3ssot).1
    "refinesTo"
    { «from» := ["Need"], «to» := ["Requirement"], cardinality := none, semantics := none }
    c3need c3req rfl rfl rfl rfl rfl rfl

def c4ssot : SSoT :=
  { meta := baseMeta,
    nodes := [{ id := "n1", kind := "Need", attrs := .obj [], metadata := none },
              { id := "n2", kind := "Requirement", attrs := .obj [], metadata := none }],
    edges := [{ «from» := "n1", kind := "refinesTo", «to» := "n2", attrs := none, metadata := none },
              { «from» := "n2", kind := "dependsOn", «to» := "n1", attrs := none, metadata := none }],
    indexes := none }

def c4params : Rec Value := [("node_ref", .str "n1"), ("cascade", .bool true)]

/-- Witness for C4: cascading deletion of a node with 2 connected edges removes
the node and exactly those 2 edges and reports `edges_deleted = 2`. -/
theorem deleteNode_cascade_spec_witness :
    deleteNode testExecEnv c4params "uuid-1" c4ssot = .ok
      ([{ type := "node_deleted", target := "n1",
          details := some (.obj [("cascade", .bool true), ("edges_deleted", .num 2)]) }],
       { c4ssot with
           nodes := c4ssot.nodes.eraseIdx 0,
           edges := c4ssot.edges.filter
             (fun e => !(isStrV (jsGet c4params "node_ref") e.«from») &&
                       !(isStrV (jsGet c4params "node_ref") e.«to»)) }) :=
  (deleteNode_cascade_spec testExecEnv c4params "uuid-1" c4ssot "n1" 0 2
    rfl rfl rfl (by decide)).2 rfl

def c6ssot : SSoT :=
  { meta := baseMeta,
    nodes := [{ id := "n1", kind := "Need", attrs := .obj [], metadata := none }],
    edges := [], indexes := none }

/-- A rule whose 'attribute' condition has no path: its evaluation throws. -/
def c6bad : CriteriaRule :=
  { id := "R-bad", title := "broken rule", description := "throws",
    severity := Severity.FAIL, category := "quality",
    target := { type := TargetType.node, kind := none, selector := none },
    condition := { type := CondType.«attribute», operator := none, value := none,
                   path := none, edge_kind := none, min := none, max := none,
                   function := none },
    message := "m", why := none, fix_hint := none }

/-- A healthy rule that produces a diagnostic (no node of kind Ghost exists). -/
def c6good : CriteriaRule :=
  { id := "R-good", title := "ghost must exist", description := "demo",
    severity := Severity.WARN, category := "quality",
    target := { type := TargetType.node, kind := some (.one "Ghost"), selector := none },
    condition := { type := CondType.«exists», operator := none, value := none,
                   path := none, edge_kind := none, min := none, max := none,
                   function := none },
    message := "missing", why := none, fix_hint := none }

/-- Witness for C6: the throwing rule contributes no diagnostics and the
remaining rule still produces its own. -/
theorem faulty_rule_isolation_witness :
    evaluateRule noRegex c6bad c6ssot "t" = [] ∧
    (evaluate noRegex ([] ++ c6bad :: [c6good]) c6ssot "t").diagnostics =
      (evaluate noRegex [] c6ssot "t").diagnostics ++
        (evaluate noRegex [c6good] c6ssot "t").diagnostics :=
  faulty_rule_isolation noRegex [] [c6good] c6bad c6ssot "t"
    (Or.inl ⟨"TypeError: Cannot read properties of undefined (reading 'split')", rfl⟩)

def c7eng : IntentEngine :=
  { ssot := { meta := baseMeta, nodes := [], edges := [], indexes := none },
    schema := { version := "1", source_profile := "p", node_kinds := [],
                edge_kinds := [], edge_definitions := [] },
    catalog := { intents := [{ id := "I.DeleteEdge", parameters := [] }] },
    options := { autoSave := false, historyDir := none } }

def c7intent : Intent := { type := "I.DeleteEdge", params := [], metadata := none }

/-- Witness for C7: the cataloged but unimplemented `I.DeleteEdge` fails
explicitly with the 'not yet implemented' message, a rollback snapshot, and an
unchanged engine. -/
theorem unimplemented_intent_fails_explicitly_witness :
    execute testExecEnv c7eng c7intent =
      ({ success := false, intent_id := "uuid-1", changes := none,
         errors := some [{ code := "EXECUTION_FAILED",
                           message := "Intent type 'I.DeleteEdge' not yet implemented",
                           field := none }],
         rollback := some { reason := "Execution error",
                            original_state_snapshot := c7eng.ssot } }, c7eng) :=
  unimplemented_intent_fails_explicitly testExecEnv c7eng c7intent rfl (by decide)

/-- Witness for C8 (amended): the 'connected' rule dispatch at the concrete
zero-minimum rule and one-node graph. -/
theorem connected_condition_effective_min_witness :
    checkRuleCondition noRegex c8rule c8ssot = .ok
      ((getTargets c8rule.target c8ssot).filterMap
        (fun t => checkConnectedCondition t c8rule.condition c8ssot)) :=
  (connected_condition_effective_min noRegex c8rule c8ssot rfl).1

def c10rule : CriteriaRule :=
  { id := "R-graph", title := "graph-target rule", description := "demo",
    severity := Severity.FAIL, category := "structure",
    target := { type := TargetType.graph, kind := none, selector := none },
    condition := { type := CondType.«exists», operator := none, value := none,
                   path := none, edge_kind := none, min := none, max := none,
                   function := none },
    message := "m", why := none, fix_hint := none }

def c10ssot : SSoT :=
  { meta := baseMeta,
    nodes := [{ id := "n1", kind := "Need", attrs := .obj [], metadata := none }],
    edges := [], indexes := none }

/-- Witness for C10: a graph-target 'exists' rule yields exactly one violation
even on a non-empty graph, because its target set is always empty. -/
theorem graph_attribute_targets_empty_witness :
    checkRuleCondition noRegex c10rule c10ssot = .ok
      [{ target_ref := none, target_kind := none, evidence_anchors := [],
         actual_value := some (.num 0), expected_value := some (.str "at least 1") }] :=
  (graph_attribute_targets_empty noRegex c10rule c10ssot (Or.inl rfl)).2.1 rfl

end GraphLint
